import Mathlib

/-!
Verification of the paladin-plugins core against its specification.

Shallow embedding of:
- `core/datastore.py` (class `DataStore`): the Cache Store;
- `core/filestore.py` (class `FileStore`): the Resource Store;
- `core/main.py` (`exec_pipeline`, `init_plugins`, `render_output`, `send_output`):
  the plugin orchestrator and output buffers.

Python dicts are modelled as association lists, SQL statement execution as an
event log split into `committed` and `pending` statements (the connection is
opened with `isolation_level = None`, i.e. sqlite autocommit mode: a statement
executed while no explicit transaction is open commits immediately; inside an
explicit BEGIN..END bracket it is pending until END/commit), Python exceptions
as `Except`/`Option` results, and the filesystem as an association list from
paths to file contents.
-/

namespace PaladinPlugins

/-! ### Values and rows for the embedded relational database -/

/-- A SQL value: the embedded database stores integers and strings. -/
inductive Val where
  | intV (n : Int)
  | strV (s : String)
deriving DecidableEq, Repr

/-- A database row, as stored by `DataStore.insert_rows` (a Python tuple). -/
abbrev Row := List Val

/-- A statement issued through the sqlite connection by a `DataStore` write
operation.  The DDL/DML text is kept as the data the Python code formats into
the SQL string. -/
inductive Stmt where
  | createTable (name : String) (ddl : String)
  | createIndex (uniqueDdl : String) (name : String) (table : String) (ddl : String)
  | dropIndex (name : String)
  | insertMany (table : String) (paramTokens : String) (data : List Row)
  | deleteRows (table : String) (whereClause : String)
deriving DecidableEq, Repr

/-- BEGIN/END statements issued by `DataStore.process_trans`. -/
inductive TransEv where
  | tbegin
  | tend
deriving DecidableEq, Repr

/-- A Python exception, as surfaced by the modelled operations. -/
inductive PyErr where
  | indexError
  | attributeError
  | fileNotFoundError
  | badGzipFile
  | urlError
deriving DecidableEq, Repr

/-- Association-list lookup, modelling Python `dict` access (`d.get(k)` /
`d[k]`, the latter raising `KeyError` on `none`). -/
def alookup {α : Type} (l : List (String × α)) (k : String) : Option α :=
  match l with
  | [] => none
  | (k', v) :: rest => if k = k' then some v else alookup rest k

/-- Association-list update: set key `k` to `v`, appending if absent
(models `d[k] = v`). -/
def aset {α : Type} (l : List (String × α)) (k : String) (v : α) : List (String × α) :=
  match l with
  | [] => [(k, v)]
  | (k', v') :: rest => if k = k' then (k', v) :: rest else (k', v') :: aset rest k v

/-- Association-list removal (models `del d[k]` / `os.remove`). -/
def aremove {α : Type} (l : List (String × α)) (k : String) : List (String × α) :=
  match l with
  | [] => []
  | (k', v') :: rest => if k = k' then rest else (k', v') :: aremove rest k

/-! ### Cache Store: `core/datastore.py`, class `DataStore` -/

/-- A registered query.  `exec_query` runs the registered SQL text through
sqlite; the embedding gives the one shape of SELECT the specification's
scenario uses a semantics: `SELECT <column selCol> FROM <table> WHERE
<column condCol> = ?`. -/
inductive SqlQuery where
  | selectWhereEq (table : String) (selCol : Nat) (condCol : Nat)
deriving DecidableEq, Repr

/-- State of one `DataStore` instance plus its sqlite connection.

`transaction` is the Python `self.transaction` flag; `dbInTrans` is whether the
underlying sqlite connection has an explicit transaction open (the connection
is in autocommit mode, `isolation_level = None`, so the two can only diverge if
BEGIN/END were issued outside `process_trans` — they are not).  `committed` and
`pending` log the statements durably committed and the statements executed
inside a still-open explicit transaction; `trace` logs the BEGIN/END
statements issued by `process_trans`.  `tables` holds the row contents used to
evaluate SELECT queries, and `age` is the freshness table
(`name` → `modified`, as a Julian-day rational timestamp). -/
structure DataStore where
  queries : List (String × SqlQuery)
  indices : List (String × (String × List String × Bool))
  transaction : Bool
  dbInTrans : Bool
  committed : List Stmt
  pending : List Stmt
  trace : List TransEv
  tables : List (String × List Row)
  age : List (String × ℚ)
deriving Repr

/-- A fresh `DataStore` as built by `__init__`: empty maps, `transaction =
False`, no explicit transaction open on the connection. -/
def DataStore.init : DataStore :=
  { queries := [], indices := [], transaction := false, dbInTrans := false,
    committed := [], pending := [], trace := [], tables := [], age := [] }

/-- `cursor.execute(stmt)` on a connection with `isolation_level = None`:
autocommits the statement unless an explicit transaction is open, in which
case the statement stays pending until END/commit. -/
def execStmt (s : Stmt) (ds : DataStore) : DataStore :=
  if ds.dbInTrans then { ds with pending := ds.pending ++ [s] }
  else { ds with committed := ds.committed ++ [s] }

/-- `self.connection.commit()`: commits the open transaction's pending
statements, if any transaction is open; otherwise a no-op. -/
def commitConn (ds : DataStore) : DataStore :=
  if ds.dbInTrans then
    { ds with committed := ds.committed ++ ds.pending, pending := [], dbInTrans := false }
  else ds

/-- `", ".join([" ".join(x) for x in columns])` in `create_table`. -/
def createDdl (columns : List (List String)) : String :=
  String.intercalate ", " (columns.map (String.intercalate " "))

/-- `DataStore.create_table(name, columns)`. -/
def create_table (name : String) (columns : List (List String)) (ds : DataStore) : DataStore :=
  let ds := execStmt (.createTable name (createDdl columns)) ds
  if !ds.transaction then commitConn ds else ds

/-- `DataStore.define_index(name, table, columns, unique)`. -/
def define_index (name table : String) (columns : List String) (unique : Bool)
    (ds : DataStore) : DataStore :=
  { ds with indices := aset ds.indices name (table, columns, unique) }

/-- `DataStore.create_index(name)`: a no-op for an undefined index name;
otherwise executes CREATE INDEX (and never calls `connection.commit()`). -/
def create_index (name : String) (ds : DataStore) : DataStore :=
  match alookup ds.indices name with
  | none => ds
  | some (table, columns, unique) =>
      execStmt (.createIndex (if unique then "UNIQUE" else "") name table
        (String.intercalate ", " columns)) ds

/-- `DataStore.drop_index(name)`: a no-op for an undefined index name;
otherwise executes DROP INDEX (and never calls `connection.commit()`). -/
def drop_index (name : String) (ds : DataStore) : DataStore :=
  match alookup ds.indices name with
  | none => ds
  | some _ => execStmt (.dropIndex name) ds

/-- `("?," * n)[:-1]`: the parameter-token string for an `n`-column row. -/
def paramTok (n : Nat) : String :=
  (String.join (List.replicate n "?,")).dropRight 1

/-- `DataStore.insert_rows(name, data)`: `data[0]` raises `IndexError` when
`data` is empty; otherwise executes one `executemany` INSERT OR IGNORE. -/
def insert_rows (name : String) (data : List Row) (ds : DataStore) :
    Except PyErr DataStore :=
  match data with
  | [] => .error .indexError
  | first :: _ =>
      let ds := execStmt (.insertMany name (paramTok first.length) data) ds
      .ok (if !ds.transaction then commitConn ds else ds)

/-- `DataStore.delete_rows(name, query)`: `query` is falsy (`None` or the
empty string) or a WHERE filter. -/
def delete_rows (name : String) (query : Option String) (ds : DataStore) : DataStore :=
  let whereClause :=
    match query with
    | none => ""
    | some q => if q = "" then "" else " WHERE " ++ q
  let ds := execStmt (.deleteRows name whereClause) ds
  if !ds.transaction then commitConn ds else ds

/-- `DataStore.define_query(name, query)`. -/
def define_query (name : String) (query : SqlQuery) (ds : DataStore) : DataStore :=
  { ds with queries := aset ds.queries name query }

/-- Row semantics of the registered SELECT shape: filter the table's rows on
`row[condCol] = params[0]` and project `row[selCol]`. -/
def evalQuery (tables : List (String × List Row)) (q : SqlQuery) (params : List Val) :
    List Row :=
  match q, params with
  | .selectWhereEq tname selCol condCol, [p] =>
      ((alookup tables tname).getD []).filterMap (fun r =>
        if r.get? condCol = some p then some [(r.get? selCol).getD (.strV "")] else none)
  | _, _ => []

/-- `DataStore.exec_query(name, parameters)`: returns `None` for an undefined
query name, otherwise the rows produced by the registered query.  (The
`connection.commit()` it performs outside a transaction is a no-op for a
SELECT and does not change the store state.) -/
def exec_query (name : String) (params : List Val) (ds : DataStore) :
    Option (List Row) :=
  match alookup ds.queries name with
  | none => none
  | some q => some (evalQuery ds.tables q params)

/-- `DataStore.process_trans()`: issues BEGIN when the flag is clear and END
(committing the pending statements) when it is set, then flips the flag. -/
def process_trans (ds : DataStore) : DataStore :=
  if !ds.transaction then
    { ds with trace := ds.trace ++ [TransEv.tbegin], dbInTrans := true, transaction := true }
  else
    { ds with
        trace := ds.trace ++ [TransEv.tend],
        committed := ds.committed ++ ds.pending,
        pending := [],
        dbInTrans := false,
        transaction := false }

/-- `DataStore.update_age(name)`: INSERT OR IGNORE a row `(name, 0)`, then
UPDATE its `modified` column to the current timestamp, then commit.  `now` is
the Julian-day value of CURRENT_TIMESTAMP. -/
def update_age (name : String) (now : ℚ) (ds : DataStore) : DataStore :=
  let age1 := if (alookup ds.age name).isSome then ds.age else ds.age ++ [(name, 0)]
  { ds with age := aset age1 name now }

/-- `DataStore.get_expired(name, days)`: true when the freshness SELECT
returns no row, or when the elapsed Julian days exceed `days`. -/
def get_expired (name : String) (days : ℚ) (now : ℚ) (ds : DataStore) : Bool :=
  match alookup ds.age name with
  | none => true
  | some modified => decide (now - modified > days)

/-! ### Resource Store: `core/filestore.py`, class `FileStore` -/

/-- On-disk file content: either a gzip-compressed payload or plain bytes.
Reading a plain file through gzip raises a gzip format error. -/
inductive Content where
  | gzipped (s : String)
  | plain (s : String)
deriving DecidableEq, Repr

/-- The filesystem, as a map from paths to file contents. -/
abbrev Fs := List (String × Content)

/-- File-type constants from the `FileStore` class body. -/
def FTYPE_TEMP : Nat := 0
def FTYPE_CACHE : Nat := 1
def FTYPE_OUTPUT : Nat := 2
def FTYPE_USER : Nat := 3

/-- File-option constants from the `FileStore` class body. -/
def FOPT_NORMAL : Nat := 0
def FOPT_GZIP : Nat := 1
def FOPT_GZIP_DECOMPRESS : Nat := 2
def FOPT_TAR : Nat := 3

/-- One `FileStore` entry (an instance of the class): id, optional source
URL, file type, option, and the computed path (set by `set_path` and updated
by `prepare` after decompression). -/
structure FileEntry where
  fid : String
  url : Option String
  ftype : Nat
  options : Nat
  path : String
deriving DecidableEq, Repr

/-- Filesystem side effects performed by `FileStore.prepare`. -/
inductive FsEv where
  | download (url : String) (path : String)
  | decompress (src : String) (dst : String)
  | extract (path : String)
deriving DecidableEq, Repr

/-- `FileStore.get_path()`: for a gzip-decompress entry whose decompressed
sibling (`path[:-3]`) already exists, resolve to the decompressed file;
otherwise the stored path. -/
def get_path (fs : Fs) (e : FileEntry) : String :=
  if e.options ≠ FOPT_GZIP_DECOMPRESS then e.path
  else
    let decompressed := e.path.dropRight 3
    if (alookup fs decompressed).isSome then decompressed else e.path

/-- `FileStore.prepare()`: download if a URL is set, then decompress if the
entry carries `FOPT_GZIP_DECOMPRESS` (writing `path[:-3]`, removing the
compressed file and updating `self.path`), then extract if `FOPT_TAR`
(member extraction is abstracted as an event).  `web` maps URLs to remote
content.  Returns the filesystem after all effects performed up to the point
of any exception, the event trace, and the updated entry or the exception.
The decompression branch mirrors the source exactly: `gzip.open(self.path)`
(file must exist), `open(self.path[:-3], "wb")` (truncates the destination
before the gzip header is read), `handle_in.read()` (raises on non-gzip
content), then `os.remove` and the path update. -/
def prepare (web : String → Option Content) (fs0 : Fs) (e : FileEntry) :
    Fs × List FsEv × Except PyErr FileEntry :=
  let dlStep : Except PyErr (Fs × List FsEv) :=
    match e.url with
    | none => .ok (fs0, [])
    | some u =>
        match web u with
        | none => .error .urlError
        | some c => .ok (aset fs0 e.path c, [FsEv.download u e.path])
  match dlStep with
  | .error err => (fs0, [], .error err)
  | .ok (fs1, evs1) =>
      if e.options = FOPT_GZIP_DECOMPRESS then
        match alookup fs1 e.path with
        | none => (fs1, evs1, .error .fileNotFoundError)
        | some c =>
            let dst := e.path.dropRight 3
            let fs2 := aset fs1 dst (.plain "")
            match c with
            | .gzipped s =>
                (aremove (aset fs2 dst (.plain s)) e.path,
                 evs1 ++ [FsEv.decompress e.path dst],
                 .ok { e with path := dst })
            | .plain _ =>
                (fs2, evs1 ++ [FsEv.decompress e.path dst], .error .badGzipFile)
      else if e.options = FOPT_TAR then
        (fs1, evs1 ++ [FsEv.extract e.path], .ok e)
      else
        (fs1, evs1, .ok e)

/-- The numeric class attributes of `FileStore` after `init(...)` has stored
the expiry threshold: the eight type/option constants from the class body and
`_expire_age` set by `init`.  No operation ever defines `EXPIRE_AGE`.
(The path-valued attributes `_output_base`, `_cache_path`, `_temp_path`,
`_output_path` and the `_entries` dict are modelled separately and are not
numeric; they are irrelevant to attribute lookups of numeric values.) -/
def fileStoreAttrs (expireAge : ℚ) : List (String × ℚ) :=
  [("FTYPE_TEMP", 0), ("FTYPE_CACHE", 1), ("FTYPE_OUTPUT", 2), ("FTYPE_USER", 3),
   ("FOPT_NORMAL", 0), ("FOPT_GZIP", 1), ("FOPT_GZIP_DECOMPRESS", 2), ("FOPT_TAR", 3),
   ("_expire_age", expireAge)]

/-- `FileStore.expired()`: `os.path.getmtime(self.get_path())` (raises if the
resolved path has no mtime, i.e. the file does not exist), then compares
`age / 86400` against the class attribute `EXPIRE_AGE` — an attribute lookup
that raises `AttributeError` when the name is not defined on the class. -/
def expired (attrs : List (String × ℚ)) (getmtime : String → Option ℚ)
    (fs : Fs) (e : FileEntry) (now : ℚ) : Except PyErr Bool :=
  match getmtime (get_path fs e) with
  | none => .error .fileNotFoundError
  | some mtime =>
      let age := now - mtime
      match alookup attrs "EXPIRE_AGE" with
      | none => .error .attributeError
      | some limit => .ok (decide (age / 86400 > limit))

/-! ### Orchestrator: `core/main.py` -/

/-- A plugin definition as populated by `plugin_connect`: the declared
dependency list and which of the three callbacks are set (the callbacks'
own effects are abstracted; only their invocations are observable). -/
structure PluginDef where
  dependencies : List String
  has_args : Bool
  has_init : Bool
  has_main : Bool
deriving DecidableEq, Repr

/-- Observable callback invocations and output performed by the pipeline. -/
inductive Event where
  | argsCall (plugin : String) (arg : String)
  | initCall (plugin : String)
  | mainCall (plugin : String)
  | internalCall (plugin : String) (arg : String)
  | errOut (msg : String)
deriving DecidableEq, Repr

/-- Result of running (part of) a pipeline: normal completion, `sys.exit`
with a code, or an uncaught `KeyError` from a dependency lookup. -/
inductive StepOut where
  | ok (events : List Event)
  | exited (events : List Event) (code : Nat)
  | keyError (events : List Event)
deriving DecidableEq, Repr

/-- `task[1].strip("\x22")`: strip leading and trailing double-quote
characters from the argument string of an internal-plugin step. -/
def stripQuotes (s : String) : String :=
  String.mk ((s.data.dropWhile (· = '"')).reverse.dropWhile (· = '"')).reverse

/-- The diagnostic `"Invalid plugin \x22{0}\x22".format(name)` sent to the
error stream for an unrecognized pipeline plugin name. -/
def invalidMsg (name : String) : String :=
  "Invalid plugin \"" ++ name ++ "\""

/-- `[plugin_modules[x] for x in deps]`: resolve every declared dependency,
raising `KeyError` (`none`) if any is not a loaded module. -/
def depDefs (modules : List (String × PluginDef)) :
    List String → Option (List (String × PluginDef))
  | [] => some []
  | d :: rest =>
      match alookup modules d with
      | none => none
      | some pd =>
          match depDefs modules rest with
          | none => none
          | some tail => some ((d, pd) :: tail)

/-- One iteration of the `exec_pipeline` loop for a task `(name, argstring)`:
internal plugins run the mapped render function; known external plugins run
`callback_args`, then every declared dependency's `callback_init`
(unconditionally), then their own `callback_init`, then `callback_main`;
an unknown name emits the diagnostic and exits with status 1.  The parsed
`args` value handed to `callback_main` is abstracted away (every shipped
plugin that sets `callback_main` also sets `callback_args`, which binds the
`args` local in the source loop). -/
def exec_task (internalPs : List String) (modules : List (String × PluginDef))
    (task : String × String) : StepOut :=
  if task.1 ∈ internalPs then
    .ok [Event.internalCall task.1 (stripQuotes task.2)]
  else
    match alookup modules task.1 with
    | some plugin =>
        let argsEvs := if plugin.has_args then [Event.argsCall task.1 task.2] else []
        match depDefs modules plugin.dependencies with
        | none => .keyError argsEvs
        | some deps =>
            let depEvs := (deps.filter (fun d => d.2.has_init)).map
              (fun d => Event.initCall d.1)
            let ownInit := if plugin.has_init then [Event.initCall task.1] else []
            let mainEv := if plugin.has_main then [Event.mainCall task.1] else []
            .ok (argsEvs ++ depEvs ++ ownInit ++ mainEv)
    | none =>
        .exited [Event.errOut (invalidMsg task.1)] 1

/-- `exec_pipeline(pipeline)`: run the tasks in order, stopping at an exit
or an uncaught exception. -/
def exec_pipeline (internalPs : List String) (modules : List (String × PluginDef)) :
    List (String × String) → StepOut
  | [] => .ok []
  | task :: rest =>
      match exec_task internalPs modules task with
      | .ok evs =>
          match exec_pipeline internalPs modules rest with
          | .ok evs' => .ok (evs ++ evs')
          | .exited evs' c => .exited (evs ++ evs') c
          | .keyError evs' => .keyError (evs ++ evs')
      | .exited evs c => .exited evs c
      | .keyError evs => .keyError evs

/-! ### Output buffers: `send_output` / `render_output` in `core/main.py` -/

/-- The two output targets.  (`send_output` treats any non-"stdout" target as
stderr; `render_output` handles exactly these two target strings.) -/
inductive Target where
  | tstdout
  | tstderr
deriving DecidableEq, Repr

/-- The module-level output state: the two append-only buffers, the two
console switches, and a log of text printed directly to the console streams
(by `send_output` when the target's console switch is set). -/
structure OutState where
  output_stdout : List String
  output_stderr : List String
  console_stdout : Bool
  console_stderr : Bool
  consoleLog : List String
deriving DecidableEq, Repr

/-- `send_output(output_text, target, suffix)`: append `text + suffix` to the
selected buffer, or print it immediately when that target's console switch
is set. -/
def send_output (txt : String) (target : Target) (suffix : String)
    (st : OutState) : OutState :=
  let new_content := txt ++ suffix
  match target with
  | .tstdout =>
      if st.console_stdout then { st with consoleLog := st.consoleLog ++ [new_content] }
      else { st with output_stdout := st.output_stdout ++ [new_content] }
  | .tstderr =>
      if st.console_stderr then { st with consoleLog := st.consoleLog ++ [new_content] }
      else { st with output_stderr := st.output_stderr ++ [new_content] }

/-- Read access to the buffer selected by a target. -/
def bufferOf (target : Target) (st : OutState) : List String :=
  match target with
  | .tstdout => st.output_stdout
  | .tstderr => st.output_stderr

/-- `render_output(filename, target)` (the `flush`/`write` internal plugin):
join the selected buffer into the rendered text and empty the buffer
(`del buf[:]`).  The rendered text is returned; whether it goes to the
console stream or to a named file only selects the destination and does not
affect the buffers. -/
def render_output (target : Target) (st : OutState) : String × OutState :=
  match target with
  | .tstdout => (String.join st.output_stdout, { st with output_stdout := [] })
  | .tstderr => (String.join st.output_stderr, { st with output_stderr := [] })

/-! ### `init_plugins` in `core/main.py` -/

/-- `set.add`: insert an element into the queue's element set, recording
first-seen (membership-insertion) order. -/
def addUnique (l : List String) (x : String) : List String :=
  if x ∈ l then l else l ++ [x]

/-- The element set of `init_queue` after the scan loop, in first-seen order:
for each requested plugin loaded as an external module,
`init_queue.update(dependencies)` then `init_queue.add(plugin)`.
Requested internal plugins are not added. -/
def init_queue_elems (modules : List (String × PluginDef)) (req : List String) :
    List String :=
  req.foldl (fun acc p =>
    match alookup modules p with
    | some d => addUnique (d.dependencies.foldl addUnique acc) p
    | none => acc) []

/-- The initialization loop of `init_plugins` over an enumeration `order` of
the queue set: for each plugin, `plugin_modules[plugin]` (KeyError = `none`
if absent), and if its `callback_init` is set and the plugin is not in
`init_history`, invoke it and add it to the history.  Returns the invocation
sequence and the history. -/
def initLoop (modules : List (String × PluginDef)) :
    List String → List String × List String → Option (List String × List String)
  | [], acc => some acc
  | p :: rest, (inits, history) =>
      match alookup modules p with
      | none => none
      | some d =>
          if d.has_init then
            if p ∈ history then initLoop modules rest (inits, history)
            else initLoop modules rest (inits ++ [p], history ++ [p])
          else initLoop modules rest (inits, history)

/-- `init_plugins(plugins)`: scan the requested names (the parameter shadows
the `plugins` package, so the unknown-name branch dereferences
`plugins.modules_disabled` on the argument collection and raises
`AttributeError` — modelled as `none`), then run the initialization loop over
an enumeration `order` of the queue set (Python `set` iteration order is
unspecified, so the enumeration is a parameter).  Returns the invocation
sequence and `True` on success. -/
def init_plugins (modules : List (String × PluginDef)) (internalPs : List String)
    (req : List String) (order : List String) : Option (List String × Bool) :=
  if req.all (fun p => (alookup modules p).isSome || decide (p ∈ internalPs)) then
    match initLoop modules order ([], []) with
    | none => none
    | some (inits, _) => some (inits, true)
  else
    none

/-- Console switch for a target (`console_stdout` / `console_stderr`). -/
def targetConsole (target : Target) (st : OutState) : Bool :=
  match target with
  | .tstdout => st.console_stdout
  | .tstderr => st.console_stderr

/-! ### Cache Store operation sequences (for the transaction invariant) -/

/-- One call against a `DataStore`: the write operations, the metadata
definitions, and the begin/end toggle. -/
inductive DsOp where
  | opCreateTable (name : String) (columns : List (List String))
  | opCreateIndex (name : String)
  | opDropIndex (name : String)
  | opInsertRows (name : String) (data : List Row)
  | opDeleteRows (name : String) (query : Option String)
  | opDefineIndex (name : String) (table : String) (columns : List String) (unique : Bool)
  | opDefineQuery (name : String) (q : SqlQuery)
  | opProcessTrans
deriving Repr

/-- Apply one operation (an `insert_rows` with an empty batch raises). -/
def applyOp (op : DsOp) (ds : DataStore) : Except PyErr DataStore :=
  match op with
  | .opCreateTable n c => .ok (create_table n c ds)
  | .opCreateIndex n => .ok (create_index n ds)
  | .opDropIndex n => .ok (drop_index n ds)
  | .opInsertRows n d => insert_rows n d ds
  | .opDeleteRows n q => .ok (delete_rows n q ds)
  | .opDefineIndex n t c u => .ok (define_index n t c u ds)
  | .opDefineQuery n q => .ok (define_query n q ds)
  | .opProcessTrans => .ok (process_trans ds)

/-- Run a sequence of operations; an exception aborts the remainder. -/
def runOps (ds : DataStore) : List DsOp → DataStore
  | [] => ds
  | op :: rest =>
      match applyOp op ds with
      | .ok ds' => runOps ds' rest
      | .error _ => ds

/-- Step of the BEGIN/END well-bracketing automaton: the state is whether a
transaction is open; BEGIN is legal only when closed, END only when open. -/
def altRun : Option Bool → TransEv → Option Bool
  | some false, TransEv.tbegin => some true
  | some true, TransEv.tend => some false
  | _, _ => none

/-- Run the bracketing automaton over a BEGIN/END trace from the closed
state: `some b` when the trace alternates BEGIN, END, BEGIN, … (leaving the
automaton in state `b`); `none` when the trace nests or unbalances. -/
def traceState (t : List TransEv) : Option Bool :=
  t.foldl altRun (some false)

/-- The store invariant tying the Python flag to the connection state and to
the BEGIN/END trace: the flag mirrors whether an explicit transaction is
open, and the trace so far is well-bracketed, leaving the bracketing
automaton exactly in the flag's state. -/
def DsInv (ds : DataStore) : Prop :=
  ds.transaction = ds.dbInTrans ∧ traceState ds.trace = some ds.transaction

/-- Whether the loaded module registered under `p` has a `callback_init`
set (false for names that are not loaded modules). -/
def hasInit (modules : List (String × PluginDef)) (p : String) : Bool :=
  match alookup modules p with
  | some d => d.has_init
  | none => false

/-! ## Helper lemmas -/

theorem alookup_aset_self {α : Type} (l : List (String × α)) (k : String) (v : α) :
    alookup (aset l k v) k = some v := by
  induction l with
  | nil => simp [aset, alookup]
  | cons h t ih =>
      obtain ⟨k', v'⟩ := h
      by_cases hk : k = k'
      · simp [aset, hk, alookup]
      · simp [aset, hk, alookup, ih]

/-! ## Claim theorems -/

/-- C4: `get_expired(table, days)` returns true when no freshness row exists
for the table; returns true when the elapsed days since the table's last
recorded update exceed `days`; and returns false immediately after
`update_age(table)` with any threshold `days ≥ 0`. -/
theorem get_expired_spec (ds : DataStore) (name : String) (days now : ℚ) :
    (alookup ds.age name = none → get_expired name days now ds = true) ∧
    (∀ modified, alookup ds.age name = some modified → now - modified > days →
      get_expired name days now ds = true) ∧
    (0 ≤ days → get_expired name days now (update_age name now ds) = false) := by
  refine ⟨fun h => ?_, fun modified h hgt => ?_, fun hdays => ?_⟩
  · simp [get_expired, h]
  · simp [get_expired, h, hgt]
  · have hself : alookup (update_age name now ds).age name = some now := by
      simp only [update_age]
      exact alookup_aset_self _ name now
    simp only [get_expired, hself]
    simp only [sub_self]
    simpa using not_lt.mpr hdays

/-- C4 witness: a concrete table is not expired immediately after
`update_age` with threshold 5. -/
theorem get_expired_spec_witness :
    get_expired "t" 5 100 (update_age "t" 100 DataStore.init) = false :=
  (get_expired_spec DataStore.init "t" 5 100).2.2 (by norm_num)

/-- C10: `insert_rows` with an empty row list raises `IndexError` (the
parameter-token string is built from `data[0]`); with a non-empty row list
the parameter construction never fails and the call returns normally. -/
theorem insert_rows_empty_spec :
    (∀ name ds, insert_rows name [] ds = Except.error PyErr.indexError) ∧
    (∀ name data ds, data ≠ [] → ∃ ds', insert_rows name data ds = Except.ok ds') := by
  constructor
  · intro name ds
    rfl
  · intro name data ds hne
    match data with
    | [] => exact absurd rfl hne
    | first :: rest =>
        exact ⟨_, rfl⟩

/-- C10 witness: the concrete behaviors at an empty and a one-row batch. -/
theorem insert_rows_empty_spec_witness :
    insert_rows "t" [] DataStore.init = Except.error PyErr.indexError ∧
    ∃ ds', insert_rows "t" [[Val.intV 1]] DataStore.init = Except.ok ds' :=
  ⟨insert_rows_empty_spec.1 "t" DataStore.init,
   insert_rows_empty_spec.2 "t" [[Val.intV 1]] DataStore.init (by simp)⟩

/-- C6: `exec_query` on a name never registered via `define_query` returns
`None` without raising; on the registered query
`"q1" = SELECT v FROM t WHERE k = ?` with parameter 5 against a table `t`
containing the row `(5, "x")` it returns exactly the one row `("x",)`. -/
theorem exec_query_spec :
    (∀ ds name params, alookup ds.queries name = none →
      exec_query name params ds = none) ∧
    (exec_query "q1" [Val.intV 5]
        (define_query "q1" (SqlQuery.selectWhereEq "t" 1 0)
          { DataStore.init with tables := [("t", [[Val.intV 5, Val.strV "x"]])] })
      = some [[Val.strV "x"]]) := by
  constructor
  · intro ds name params h
    simp [exec_query, h]
  · rfl

/-- C6 witness: running an undefined query name against a fresh store
returns `None`. -/
theorem exec_query_spec_witness :
    exec_query "undefined" [] DataStore.init = none :=
  exec_query_spec.1 DataStore.init "undefined" [] rfl

/-- The class attribute dictionary defines no `EXPIRE_AGE` name, whatever
expiry threshold `init` stored under `_expire_age`. -/
theorem alookup_attrs_expire_age (expireAge : ℚ) :
    alookup (fileStoreAttrs expireAge) "EXPIRE_AGE" = none := by
  simp [fileStoreAttrs, alookup]

/-- C9: `FileStore.expired` never returns a boolean: it reads the undefined
class attribute `FileStore.EXPIRE_AGE` (`init` stores the threshold under
`_expire_age`), so whenever the entry's resolved path has an mtime the call
raises `AttributeError` — and when it has none, `getmtime` itself raises
first, so the check fails for every input. -/
theorem expired_attr_error (expireAge : ℚ) (getmtime : String → Option ℚ)
    (fs : Fs) (e : FileEntry) (now : ℚ) :
    (∀ b, expired (fileStoreAttrs expireAge) getmtime fs e now ≠ Except.ok b) ∧
    ((getmtime (get_path fs e)).isSome →
      expired (fileStoreAttrs expireAge) getmtime fs e now
        = Except.error PyErr.attributeError) := by
  have hnone := alookup_attrs_expire_age expireAge
  constructor
  · intro b hok
    unfold expired at hok
    cases hmt : getmtime (get_path fs e) with
    | none => rw [hmt] at hok; exact Except.noConfusion hok
    | some m => rw [hmt, hnone] at hok; exact Except.noConfusion hok
  · intro hsome
    cases hmt : getmtime (get_path fs e) with
    | none => rw [hmt] at hsome; exact absurd hsome (by simp)
    | some m => unfold expired; rw [hmt, hnone]

/-- C9 witness: a registered cache entry whose file exists raises
`AttributeError` from the expiry check. -/
theorem expired_attr_error_witness :
    expired (fileStoreAttrs 30) (fun _ => some 1000)
      [("/cache/db.gz", Content.gzipped "data")]
      { fid := "db", url := none, ftype := FTYPE_CACHE, options := FOPT_NORMAL,
        path := "/cache/db.gz" } 2000
      = Except.error PyErr.attributeError :=
  (expired_attr_error 30 (fun _ => some 1000)
      [("/cache/db.gz", Content.gzipped "data")]
      { fid := "db", url := none, ftype := FTYPE_CACHE, options := FOPT_NORMAL,
        path := "/cache/db.gz" } 2000).2 (by rfl)

/-- `send_output` with the target's console switch clear appends the fragment
to the target's buffer and leaves the switch unchanged. -/
theorem send_output_buffer (txt suffix : String) (target : Target) (st : OutState)
    (h : targetConsole target st = false) :
    bufferOf target (send_output txt target suffix st)
        = bufferOf target st ++ [txt ++ suffix] ∧
    targetConsole target (send_output txt target suffix st) = false := by
  cases target <;> simp_all [send_output, bufferOf, targetConsole]

/-- Folding a list of `send_output` calls over a buffered target appends each
fragment (text plus suffix) in order. -/
theorem send_fold_buffer (target : Target) (frags : List String) (st : OutState)
    (h : targetConsole target st = false) :
    bufferOf target (frags.foldl (fun s t => send_output t target "\n" s) st)
        = bufferOf target st ++ frags.map (fun t => t ++ "\n") ∧
    targetConsole target (frags.foldl (fun s t => send_output t target "\n" s) st)
        = false := by
  induction frags generalizing st with
  | nil => simpa using h
  | cons f rest ih =>
      obtain ⟨hb, hc⟩ := send_output_buffer f "\n" target st h
      obtain ⟨ihb, ihc⟩ := ih (send_output f target "\n" st) hc
      refine ⟨?_, ihc⟩
      simp [List.foldl_cons, ihb, hb]

/-- C8: the internal `flush`/`write` operation is a destructive read of the
selected buffer: after one flush the buffer is empty and the rendered text is
the concatenation of the buffered fragments; a second consecutive flush of
the same target renders the empty string; and starting from a drained buffer
the rendered text of the next flush is exactly the concatenation of the
fragments sent to that buffer (each with its newline suffix) since the
drain. -/
theorem render_output_drain (st : OutState) (target : Target) (frags : List String) :
    (bufferOf target (render_output target st).2 = [] ∧
      (render_output target st).1 = String.join (bufferOf target st)) ∧
    (render_output target (render_output target st).2).1 = "" ∧
    (targetConsole target st = false →
      (render_output target
          (frags.foldl (fun s t => send_output t target "\n" s)
            (render_output target st).2)).1
        = String.join (frags.map (fun t => t ++ "\n"))) := by
  have hdrain : bufferOf target (render_output target st).2 = [] := by
    cases target <;> simp [render_output, bufferOf]
  refine ⟨⟨hdrain, ?_⟩, ?_, ?_⟩
  · cases target <;> simp [render_output, bufferOf]
  · cases htgt : (render_output target st).2 with
    | mk so se cso cse log =>
        cases target <;>
          simp_all [render_output, bufferOf] <;>
          simp [String.join]
  · intro hconsole
    have hconsole2 : targetConsole target (render_output target st).2 = false := by
      cases target <;> simp_all [render_output, targetConsole]
    obtain ⟨hb, _⟩ := send_fold_buffer target frags (render_output target st).2 hconsole2
    have hrender : ∀ st' : OutState,
        (render_output target st').1 = String.join (bufferOf target st') := by
      intro st'
      cases target <;> simp [render_output, bufferOf]
    rw [hrender, hb, hdrain, List.nil_append]

/-- C8 witness: concrete drain of a stdout buffer holding two fragments,
followed by two sends and a second flush. -/
theorem render_output_drain_witness :
    (render_output Target.tstdout
        { output_stdout := ["a\n", "b\n"], output_stderr := [],
          console_stdout := false, console_stderr := true, consoleLog := [] }).1
      = "a\nb\n" ∧
    (render_output Target.tstdout
        (["c", "d"].foldl (fun s t => send_output t Target.tstdout "\n" s)
          (render_output Target.tstdout
            { output_stdout := ["a\n", "b\n"], output_stderr := [],
              console_stdout := false, console_stderr := true,
              consoleLog := [] }).2)).1
      = "c\nd\n" := by
  refine ⟨?_, ?_⟩
  · have h := (render_output_drain
      { output_stdout := ["a\n", "b\n"], output_stderr := [],
        console_stdout := false, console_stderr := true, consoleLog := [] }
      Target.tstdout []).1.2
    simpa [bufferOf, String.join] using h
  · have h := (render_output_drain
      { output_stdout := ["a\n", "b\n"], output_stderr := [],
        console_stdout := false, console_stderr := true, consoleLog := [] }
      Target.tstdout ["c", "d"]).2.2 (by rfl)
    simpa [String.join] using h

theorem traceState_append_one (t : List TransEv) (e : TransEv) :
    traceState (t ++ [e]) = altRun (traceState t) e := by
  simp [traceState, List.foldl_append]

theorem dsInv_init : DsInv DataStore.init := by
  constructor <;> rfl

theorem dsInv_applyOp (op : DsOp) (ds ds' : DataStore) (hinv : DsInv ds)
    (h : applyOp op ds = Except.ok ds') : DsInv ds' := by
  obtain ⟨hdb, htr⟩ := hinv
  cases op with
  | opCreateTable n c =>
      cases h
      cases hflag : ds.transaction <;>
        simp_all [create_table, execStmt, commitConn, DsInv]
  | opCreateIndex n =>
      cases h
      cases halo : alookup ds.indices n with
      | none => simp_all [create_index, DsInv]
      | some v =>
          obtain ⟨tb, cols, u⟩ := v
          cases hflag : ds.transaction <;>
            simp_all [create_index, execStmt, DsInv]
  | opDropIndex n =>
      cases h
      cases halo : alookup ds.indices n with
      | none => simp_all [drop_index, DsInv]
      | some v =>
          cases hflag : ds.transaction <;>
            simp_all [drop_index, execStmt, DsInv]
  | opInsertRows n d =>
      cases d with
      | nil => exact absurd h (by simp [applyOp, insert_rows])
      | cons first rest =>
          simp only [applyOp, insert_rows, Except.ok.injEq] at h
          subst h
          cases hflag : ds.transaction <;>
            simp_all [execStmt, commitConn, DsInv]
  | opDeleteRows n q =>
      cases h
      cases hflag : ds.transaction <;>
        simp_all [delete_rows, execStmt, commitConn, DsInv]
  | opDefineIndex n t c u =>
      cases h
      simp_all [define_index, DsInv]
  | opDefineQuery n q =>
      cases h
      simp_all [define_query, DsInv]
  | opProcessTrans =>
      cases h
      cases hflag : ds.transaction <;>
        simp_all [process_trans, DsInv, traceState_append_one, altRun]

theorem dsInv_runOps (ops : List DsOp) (ds : DataStore) (hinv : DsInv ds) :
    DsInv (runOps ds ops) := by
  induction ops generalizing ds with
  | nil => exact hinv
  | cons op rest ih =>
      simp only [runOps]
      cases h : applyOp op ds with
      | ok ds' => exact ih ds' (dsInv_applyOp op ds ds' hinv h)
      | error e => exact hinv

/-- C5: every Cache Store write operation (table creation, bulk insert, bulk
delete, index creation and drop) commits immediately if and only if the
store's transaction flag is false (when the flag mirrors the connection
state, as it always does along real histories — see the final conjunct):
with the flag clear the executed statement lands in `committed` at once, with
the flag set it stays `pending`.  `process_trans` toggles the flag, issuing
BEGIN when the flag is false and END (committing the pending statements) when
it is true.  Transactions are never nested: along every operation sequence
from a fresh store, the BEGIN/END trace is well-bracketed and alternating,
ending in the flag's state. -/
theorem datastore_commit_spec :
    (∀ ds name columns, ds.transaction = ds.dbInTrans →
      (ds.transaction = false →
        (create_table name columns ds).committed
            = ds.committed ++ [Stmt.createTable name (createDdl columns)] ∧
        (create_table name columns ds).pending = ds.pending) ∧
      (ds.transaction = true →
        (create_table name columns ds).pending
            = ds.pending ++ [Stmt.createTable name (createDdl columns)] ∧
        (create_table name columns ds).committed = ds.committed)) ∧
    (∀ ds name table columns unique, ds.transaction = ds.dbInTrans →
      alookup ds.indices name = some (table, columns, unique) →
      (ds.transaction = false →
        (create_index name ds).committed = ds.committed ++
            [Stmt.createIndex (if unique then "UNIQUE" else "") name table
              (String.intercalate ", " columns)] ∧
        (create_index name ds).pending = ds.pending) ∧
      (ds.transaction = true →
        (create_index name ds).pending = ds.pending ++
            [Stmt.createIndex (if unique then "UNIQUE" else "") name table
              (String.intercalate ", " columns)] ∧
        (create_index name ds).committed = ds.committed)) ∧
    (∀ ds name v, ds.transaction = ds.dbInTrans →
      alookup ds.indices name = some v →
      (ds.transaction = false →
        (drop_index name ds).committed = ds.committed ++ [Stmt.dropIndex name] ∧
        (drop_index name ds).pending = ds.pending) ∧
      (ds.transaction = true →
        (drop_index name ds).pending = ds.pending ++ [Stmt.dropIndex name] ∧
        (drop_index name ds).committed = ds.committed)) ∧
    (∀ ds name first rest, ds.transaction = ds.dbInTrans →
      ∃ ds', insert_rows name (first :: rest) ds = Except.ok ds' ∧
        (ds.transaction = false →
          ds'.committed = ds.committed ++
              [Stmt.insertMany name (paramTok first.length) (first :: rest)] ∧
          ds'.pending = ds.pending) ∧
        (ds.transaction = true →
          ds'.pending = ds.pending ++
              [Stmt.insertMany name (paramTok first.length) (first :: rest)] ∧
          ds'.committed = ds.committed)) ∧
    (∀ ds name query, ds.transaction = ds.dbInTrans →
      (ds.transaction = false →
        (delete_rows name query ds).committed = ds.committed ++
            [Stmt.deleteRows name (match query with
              | none => ""
              | some q => if q = "" then "" else " WHERE " ++ q)] ∧
        (delete_rows name query ds).pending = ds.pending) ∧
      (ds.transaction = true →
        (delete_rows name query ds).pending = ds.pending ++
            [Stmt.deleteRows name (match query with
              | none => ""
              | some q => if q = "" then "" else " WHERE " ++ q)] ∧
        (delete_rows name query ds).committed = ds.committed)) ∧
    (∀ ds, (process_trans ds).transaction = !ds.transaction ∧
      (ds.transaction = false →
        (process_trans ds).trace = ds.trace ++ [TransEv.tbegin] ∧
        (process_trans ds).committed = ds.committed ∧
        (process_trans ds).pending = ds.pending) ∧
      (ds.transaction = true →
        (process_trans ds).trace = ds.trace ++ [TransEv.tend] ∧
        (process_trans ds).committed = ds.committed ++ ds.pending ∧
        (process_trans ds).pending = [])) ∧
    (∀ ops : List DsOp,
      traceState (runOps DataStore.init ops).trace
        = some (runOps DataStore.init ops).transaction) := by
  refine ⟨?_, ?_, ?_, ?_, ?_, ?_, ?_⟩
  · intro ds name columns hdb
    constructor <;> intro hflag <;>
      simp_all [create_table, execStmt, commitConn]
  · intro ds name table columns unique hdb halo
    constructor <;> intro hflag <;>
      simp_all [create_index, execStmt]
  · intro ds name v hdb halo
    constructor <;> intro hflag <;>
      simp_all [drop_index, execStmt]
  · intro ds name first rest hdb
    refine ⟨_, rfl, ?_, ?_⟩ <;> intro hflag <;>
      simp_all [insert_rows, execStmt, commitConn]
  · intro ds name query hdb
    constructor <;> intro hflag <;>
      simp_all [delete_rows, execStmt, commitConn]
  · intro ds
    refine ⟨?_, ?_, ?_⟩
    · cases hflag : ds.transaction <;> simp [process_trans, hflag]
    · intro hflag; simp [process_trans, hflag]
    · intro hflag; simp [process_trans, hflag]
  · intro ops
    exact (dsInv_runOps ops DataStore.init dsInv_init).2

/-- C5 witness: concrete bulk-load pattern — create a table outside a
transaction (committed at once), begin, delete and insert inside the
transaction (pending), end — with an alternating BEGIN/END trace. -/
theorem datastore_commit_spec_witness :
    (create_table "t" [["k", "integer"], ["v", "text"]] DataStore.init).committed
        = [Stmt.createTable "t" "k integer, v text"] ∧
    (process_trans DataStore.init).trace = [TransEv.tbegin] ∧
    traceState (runOps DataStore.init
        [DsOp.opCreateTable "t" [["k", "integer"], ["v", "text"]],
         DsOp.opProcessTrans,
         DsOp.opDeleteRows "t" none,
         DsOp.opInsertRows "t" [[Val.intV 5, Val.strV "x"]],
         DsOp.opProcessTrans]).trace = some false := by
  refine ⟨?_, ?_, ?_⟩
  · have h := ((datastore_commit_spec.1 DataStore.init "t"
      [["k", "integer"], ["v", "text"]] rfl).1 rfl).1
    simpa [DataStore.init, createDdl] using h
  · have h := ((datastore_commit_spec.2.2.2.2.2.1 DataStore.init).2.1 rfl).1
    simpa [DataStore.init] using h
  · have h := datastore_commit_spec.2.2.2.2.2.2
      [DsOp.opCreateTable "t" [["k", "integer"], ["v", "text"]],
       DsOp.opProcessTrans,
       DsOp.opDeleteRows "t" none,
       DsOp.opInsertRows "t" [[Val.intV 5, Val.strV "x"]],
       DsOp.opProcessTrans]
    have hflag : (runOps DataStore.init
        [DsOp.opCreateTable "t" [["k", "integer"], ["v", "text"]],
         DsOp.opProcessTrans,
         DsOp.opDeleteRows "t" none,
         DsOp.opInsertRows "t" [[Val.intV 5, Val.strV "x"]],
         DsOp.opProcessTrans]).transaction = false := by rfl
    rw [hflag] at h
    exact h

theorem depDefs_total (modules : List (String × PluginDef)) (l : List String)
    (h : ∀ d ∈ l, (alookup modules d).isSome) :
    ∃ ds, depDefs modules l = some ds := by
  induction l with
  | nil => exact ⟨[], rfl⟩
  | cons d rest ih =>
      obtain ⟨pd, hpd⟩ := Option.isSome_iff_exists.mp (h d (by simp))
      obtain ⟨tail, htail⟩ := ih (fun x hx => h x (by simp [hx]))
      exact ⟨(d, pd) :: tail, by simp [depDefs, hpd, htail]⟩

theorem exec_task_ok (internalPs : List String) (modules : List (String × PluginDef))
    (t : String × String)
    (hdeps : ∀ name p, alookup modules name = some p →
      ∀ d ∈ p.dependencies, (alookup modules d).isSome)
    (hgood : t.1 ∈ internalPs ∨ (alookup modules t.1).isSome) :
    ∃ evs, exec_task internalPs modules t = StepOut.ok evs := by
  by_cases hint : t.1 ∈ internalPs
  · refine ⟨[Event.internalCall t.1 (stripQuotes t.2)], ?_⟩
    simp [exec_task, hint]
  · obtain ⟨p, hp⟩ := Option.isSome_iff_exists.mp (hgood.resolve_left hint)
    obtain ⟨ds, hds⟩ := depDefs_total modules p.dependencies (hdeps t.1 p hp)
    refine ⟨(if p.has_args then [Event.argsCall t.1 t.2] else []) ++
      ((ds.filter (fun d => d.2.has_init)).map (fun d => Event.initCall d.1) ++
        ((if p.has_init then [Event.initCall t.1] else []) ++
          (if p.has_main then [Event.mainCall t.1] else []))), ?_⟩
    simp [exec_task, hint, hp, hds]

/-- C7: a pipeline step whose plugin name is neither internal nor a loaded
external module is fatal: every step before the offending one executes
normally, the orchestrator emits the diagnostic (which contains the literal
plugin name) to the error stream, exits with the non-zero status 1, and no
event of any later step is produced. -/
theorem exec_pipeline_unknown_fatal (internalPs : List String)
    (modules : List (String × PluginDef)) (pre post : List (String × String))
    (t : String × String)
    (hdeps : ∀ name p, alookup modules name = some p →
      ∀ d ∈ p.dependencies, (alookup modules d).isSome)
    (hpre : ∀ t' ∈ pre, t'.1 ∈ internalPs ∨ (alookup modules t'.1).isSome)
    (hbadInt : t.1 ∉ internalPs) (hbadMod : alookup modules t.1 = none) :
    ∃ evs, exec_pipeline internalPs modules pre = StepOut.ok evs ∧
      exec_pipeline internalPs modules (pre ++ t :: post)
        = StepOut.exited (evs ++ [Event.errOut (invalidMsg t.1)]) 1 ∧
      ∃ s1 s2, invalidMsg t.1 = s1 ++ t.1 ++ s2 := by
  induction pre with
  | nil =>
      refine ⟨[], rfl, ?_, "Invalid plugin \"", "\"", rfl⟩
      simp [exec_pipeline, exec_task, hbadInt, hbadMod]
  | cons t' pre' ih =>
      obtain ⟨evs0, hok0⟩ := exec_task_ok internalPs modules t' hdeps
        (hpre t' (by simp))
      obtain ⟨evs, hpreOk, hrest, hsub⟩ := ih (fun x hx => hpre x (by simp [hx]))
      refine ⟨evs0 ++ evs, ?_, ?_, hsub⟩
      · simp [exec_pipeline, hok0, hpreOk]
      · simp [exec_pipeline, hok0, hrest]

/-- C7 witness: the concrete pipeline `taxonomy` then `doesnotexist` executes
the first step and exits with status 1 after the diagnostic that names
`doesnotexist`. -/
theorem exec_pipeline_unknown_fatal_witness :
    ∃ evs, exec_pipeline ["flush", "write"]
        [("taxonomy",
          { dependencies := [], has_args := true, has_init := true, has_main := true })]
        [("taxonomy", "-i in")] = StepOut.ok evs ∧
      exec_pipeline ["flush", "write"]
        [("taxonomy",
          { dependencies := [], has_args := true, has_init := true, has_main := true })]
        ([("taxonomy", "-i in")] ++ ("doesnotexist", "") :: [])
        = StepOut.exited (evs ++ [Event.errOut (invalidMsg "doesnotexist")]) 1 ∧
      ∃ s1 s2, invalidMsg "doesnotexist" = s1 ++ "doesnotexist" ++ s2 := by
  have h := exec_pipeline_unknown_fatal ["flush", "write"]
    [("taxonomy",
      { dependencies := [], has_args := true, has_init := true, has_main := true })]
    [("taxonomy", "-i in")] [] ("doesnotexist", "")
    (by
      intro name p hp d hd
      by_cases hn : name = "taxonomy"
      · simp [alookup, hn] at hp
        subst hp
        simp at hd
      · simp [alookup, hn] at hp)
    (by
      intro t' ht'
      simp at ht'
      subst ht'
      right
      simp [alookup])
    (by simp)
    (by simp [alookup])
  exact h

theorem depDefs_map_fst (modules : List (String × PluginDef)) (l : List String)
    (deps : List (String × PluginDef)) (h : depDefs modules l = some deps) :
    deps.map Prod.fst = l := by
  induction l generalizing deps with
  | nil =>
      simp only [depDefs, Option.some.injEq] at h
      subst h
      rfl
  | cons d rest ih =>
      simp only [depDefs] at h
      cases hd : alookup modules d with
      | none => rw [hd] at h; exact absurd h (by simp)
      | some pd =>
          rw [hd] at h
          cases ht : depDefs modules rest with
          | none => rw [ht] at h; exact absurd h (by simp)
          | some tail =>
              rw [ht] at h
              injection h with h
              subst h
              simp [ih tail ht]

/-- C1 counterexample: two pipeline steps whose plugins both declare the
dependency `d` make `exec_pipeline` invoke `d`'s initialize hook twice in one
process — there is no at-most-once guard in the step loop, refuting the
claimed process-wide at-most-once guarantee. -/
theorem exec_pipeline_dep_init_twice_cex :
    exec_pipeline []
      [("a", { dependencies := ["d"], has_args := true, has_init := false, has_main := true }),
       ("b", { dependencies := ["d"], has_args := true, has_init := false, has_main := true }),
       ("d", { dependencies := [], has_args := false, has_init := true, has_main := false })]
      [("a", ""), ("b", "")]
    = StepOut.ok [Event.argsCall "a" "", Event.initCall "d", Event.mainCall "a",
        Event.argsCall "b" "", Event.initCall "d", Event.mainCall "b"] ∧
    [Event.argsCall "a" "", Event.initCall "d", Event.mainCall "a",
      Event.argsCall "b" "", Event.initCall "d",
      Event.mainCall "b"].count (Event.initCall "d") = 2 :=
  ⟨rfl, rfl⟩

/-- C1 (amended): at every external-plugin pipeline step, each declared
dependency whose initialize hook is defined has that hook invoked before the
plugin's own initialize and run hooks — unconditionally at each step, with no
at-most-once guard, so a shared dependency's initialize hook runs once per
referencing step rather than at most once per process (see the
counterexample). -/
theorem exec_task_dep_init_each_step (internalPs : List String)
    (modules : List (String × PluginDef)) (name argstr : String)
    (plugin : PluginDef) (deps : List (String × PluginDef))
    (hint : name ∉ internalPs)
    (hmod : alookup modules name = some plugin)
    (hdeps : depDefs modules plugin.dependencies = some deps) :
    deps.map Prod.fst = plugin.dependencies ∧
    exec_task internalPs modules (name, argstr) = StepOut.ok
      ((if plugin.has_args then [Event.argsCall name argstr] else []) ++
        (deps.filter (fun d => d.2.has_init)).map (fun d => Event.initCall d.1) ++
        (if plugin.has_init then [Event.initCall name] else []) ++
        (if plugin.has_main then [Event.mainCall name] else [])) ∧
    (∀ d ∈ deps, d.2.has_init = true →
      Event.initCall d.1 ∈
        (deps.filter (fun d => d.2.has_init)).map (fun d => Event.initCall d.1)) := by
  refine ⟨depDefs_map_fst modules plugin.dependencies deps hdeps, ?_, ?_⟩
  · simp [exec_task, hint, hmod, hdeps]
  · intro d hd hinit
    exact List.mem_map_of_mem _ (List.mem_filter.mpr ⟨hd, hinit⟩)

/-- C1 witness: a concrete step on plugin `p` with dependency `d` invokes
`d`'s initialize hook, then `p`'s initialize, then `p`'s run hook. -/
theorem exec_task_dep_init_each_step_witness :
    exec_task []
      [("p", { dependencies := ["d"], has_args := true, has_init := true, has_main := true }),
       ("d", { dependencies := [], has_args := false, has_init := true, has_main := false })]
      ("p", "-x")
    = StepOut.ok [Event.argsCall "p" "-x", Event.initCall "d", Event.initCall "p",
        Event.mainCall "p"] := by
  have h := (exec_task_dep_init_each_step []
    [("p", { dependencies := ["d"], has_args := true, has_init := true, has_main := true }),
     ("d", { dependencies := [], has_args := false, has_init := true, has_main := false })]
    "p" "-x"
    { dependencies := ["d"], has_args := true, has_init := true, has_main := true }
    [("d", { dependencies := [], has_args := false, has_init := true, has_main := false })]
    (by simp) rfl rfl).2.1
  simpa using h

theorem alookup_aset_ne {α : Type} (l : List (String × α)) (k k' : String) (v : α)
    (h : k ≠ k') : alookup (aset l k' v) k = alookup l k := by
  induction l with
  | nil => simp [aset, alookup, h]
  | cons hd tl ih =>
      obtain ⟨k0, v0⟩ := hd
      by_cases hk0 : k' = k0
      · subst hk0
        simp [aset, alookup, h]
      · by_cases hkk0 : k = k0 <;> simp [aset, alookup, hk0, hkk0, ih]

/-- C2 counterexample: materializing a gzip-decompress cache entry, writing a
sentinel to the decompressed file, then calling Materialize a second time
does re-enter the decompression branch: the second call re-invokes
decompression on the already-decompressed file (the `decompress` event is in
its trace), fails with a gzip format error instead of being a guarded no-op,
and truncates a junk sibling path (`path[:-3]` of the updated path). -/
theorem prepare_second_materialize_cex :
    prepare (fun _ => none) [("/cache/data.txt.gz", Content.gzipped "payload")]
      { fid := "data", url := none, ftype := FTYPE_CACHE, options := FOPT_GZIP_DECOMPRESS, path := "/cache/data.txt.gz" }
    = ([("/cache/data.txt", Content.plain "payload")],
       [FsEv.decompress "/cache/data.txt.gz" "/cache/data.txt"],
       Except.ok { fid := "data", url := none, ftype := FTYPE_CACHE, options := FOPT_GZIP_DECOMPRESS, path := "/cache/data.txt" }) ∧
    prepare (fun _ => none)
      (aset [("/cache/data.txt", Content.plain "payload")] "/cache/data.txt" (Content.plain "SENTINEL"))
      { fid := "data", url := none, ftype := FTYPE_CACHE, options := FOPT_GZIP_DECOMPRESS, path := "/cache/data.txt" }
    = ([("/cache/data.txt", Content.plain "SENTINEL"), ("/cache/data.", Content.plain "")],
       [FsEv.decompress "/cache/data.txt" "/cache/data."],
       Except.error PyErr.badGzipFile) ∧
    FsEv.decompress "/cache/data.txt" "/cache/data."
      ∈ [FsEv.decompress "/cache/data.txt" "/cache/data."] :=
  ⟨rfl, rfl, by simp⟩

/-- C2 (amended): the pre-existing-decompressed-file check lives in the path
resolution `get_path`, not in Materialize.  A second Materialize of a
gzip-decompress entry (whose stored path now holds the decompressed content,
e.g. a sentinel) unconditionally re-invokes the decompression branch: it
truncates the sibling `path[:-3]`, records the `decompress` event, and fails
with a gzip format error; the sentinel content at the entry's path survives
only because the failure aborts the branch before the removal step.
`get_path`, by contrast, does resolve to an already-present decompressed
file. -/
theorem prepare_no_decompress_guard (web : String → Option Content) (fs : Fs)
    (e : FileEntry) (s : String)
    (hopt : e.options = FOPT_GZIP_DECOMPRESS)
    (hurl : e.url = none)
    (hfile : alookup fs e.path = some (Content.plain s))
    (hne : e.path ≠ e.path.dropRight 3) :
    prepare web fs e
      = (aset fs (e.path.dropRight 3) (Content.plain ""),
         [FsEv.decompress e.path (e.path.dropRight 3)],
         Except.error PyErr.badGzipFile) ∧
    alookup (prepare web fs e).1 e.path = some (Content.plain s) ∧
    (∀ (fs' : Fs) (e' : FileEntry), e'.options = FOPT_GZIP_DECOMPRESS →
      (alookup fs' (e'.path.dropRight 3)).isSome = true →
      get_path fs' e' = e'.path.dropRight 3) := by
  have hmain : prepare web fs e
      = (aset fs (e.path.dropRight 3) (Content.plain ""),
         [FsEv.decompress e.path (e.path.dropRight 3)],
         Except.error PyErr.badGzipFile) := by
    simp [prepare, hurl, hopt, hfile]
  refine ⟨hmain, ?_, ?_⟩
  · rw [hmain]
    rw [alookup_aset_ne fs e.path (e.path.dropRight 3) (Content.plain "") hne]
    exact hfile
  · intro fs' e' hopt' hsome
    simp [get_path, hopt', hsome]

/-- C2 witness: the amended behavior at a concrete entry whose path holds a
sentinel in place of the compressed file. -/
theorem prepare_no_decompress_guard_witness :
    prepare (fun _ => none) [("/cache/ref.fa", Content.plain "SENTINEL")]
      { fid := "ref", url := none, ftype := FTYPE_CACHE, options := FOPT_GZIP_DECOMPRESS, path := "/cache/ref.fa" }
    = (aset [("/cache/ref.fa", Content.plain "SENTINEL")] ("/cache/ref.fa".dropRight 3) (Content.plain ""),
       [FsEv.decompress "/cache/ref.fa" ("/cache/ref.fa".dropRight 3)],
       Except.error PyErr.badGzipFile) :=
  (prepare_no_decompress_guard (fun _ => none)
    [("/cache/ref.fa", Content.plain "SENTINEL")]
    { fid := "ref", url := none, ftype := FTYPE_CACHE, options := FOPT_GZIP_DECOMPRESS, path := "/cache/ref.fa" }
    "SENTINEL" rfl rfl rfl (by decide)).1

theorem addUnique_nodup (l : List String) (x : String) (h : l.Nodup) :
    (addUnique l x).Nodup := by
  unfold addUnique
  by_cases hx : x ∈ l
  · simpa [hx]
  · simp [hx, List.nodup_append, h]

theorem foldl_addUnique_nodup (l : List String) (acc : List String) (h : acc.Nodup) :
    (l.foldl addUnique acc).Nodup := by
  induction l generalizing acc with
  | nil => exact h
  | cons x rest ih => exact ih _ (addUnique_nodup acc x h)

theorem init_queue_elems_nodup (modules : List (String × PluginDef))
    (req : List String) : (init_queue_elems modules req).Nodup := by
  suffices h : ∀ acc : List String, acc.Nodup →
      (req.foldl (fun acc p =>
        match alookup modules p with
        | some d => addUnique (d.dependencies.foldl addUnique acc) p
        | none => acc) acc).Nodup by
    exact h [] List.nodup_nil
  induction req with
  | nil => intro acc hacc; exact hacc
  | cons p rest ih =>
      intro acc hacc
      simp only [List.foldl_cons]
      cases halo : alookup modules p with
      | none => exact ih acc hacc
      | some d => exact ih _ (addUnique_nodup _ p (foldl_addUnique_nodup _ _ hacc))

theorem initLoop_run (modules : List (String × PluginDef)) (order : List String)
    (inits history : List String)
    (hres : ∀ p ∈ order, (alookup modules p).isSome = true)
    (hnd : order.Nodup)
    (hdisj : ∀ p ∈ order, p ∉ history) :
    initLoop modules order (inits, history)
      = some (inits ++ order.filter (fun p => hasInit modules p),
              history ++ order.filter (fun p => hasInit modules p)) := by
  induction order generalizing inits history with
  | nil => simp [initLoop]
  | cons p rest ih =>
      obtain ⟨d, hd⟩ := Option.isSome_iff_exists.mp (hres p (by simp))
      have hrest : ∀ q ∈ rest, (alookup modules q).isSome = true :=
        fun q hq => hres q (by simp [hq])
      have hndr : rest.Nodup := (List.nodup_cons.mp hnd).2
      have hpnr : p ∉ rest := (List.nodup_cons.mp hnd).1
      simp only [initLoop, hd]
      by_cases hinit : d.has_init
      · rw [if_pos hinit, if_neg (hdisj p (by simp))]
        have hdisj2 : ∀ q ∈ rest, q ∉ history ++ [p] := by
          intro q hq
          simp only [List.mem_append, List.mem_singleton]
          push_neg
          exact ⟨hdisj q (by simp [hq]), fun h => hpnr (h ▸ hq)⟩
        rw [ih (inits ++ [p]) (history ++ [p]) hrest hndr hdisj2]
        have hfil : (p :: rest).filter (fun q => hasInit modules q)
            = p :: rest.filter (fun q => hasInit modules q) := by
          simp [List.filter_cons, hasInit, hd, hinit]
        rw [hfil]
        simp
      · rw [if_neg hinit]
        rw [ih inits history hrest hndr (fun q hq => hdisj q (by simp [hq]))]
        have hfil : (p :: rest).filter (fun q => hasInit modules q)
            = rest.filter (fun q => hasInit modules q) := by
          simp [List.filter_cons, hasInit, hd, hinit]
        rw [hfil]

/-- C3 counterexample: the initialization queue is a Python `set`, whose
iteration order is unspecified.  For modules `a` (depending on `b`) and `b`,
the first-seen order of the queue is `[b, a]`, yet the enumeration
`[a, b]` — a permutation of that set, hence a legal set-iteration order —
makes `init_plugins` invoke `a`'s initialize hook before `b`'s, refuting the
claimed first-seen invocation order. -/
theorem init_plugins_first_seen_cex :
    init_queue_elems
      [("a", { dependencies := ["b"], has_args := false, has_init := true, has_main := true }),
       ("b", { dependencies := [], has_args := false, has_init := true, has_main := false })]
      ["a"] = ["b", "a"] ∧
    List.Perm ["a", "b"] ["b", "a"] ∧
    init_plugins
      [("a", { dependencies := ["b"], has_args := false, has_init := true, has_main := true }),
       ("b", { dependencies := [], has_args := false, has_init := true, has_main := false })]
      [] ["a"] ["a", "b"]
      = some (["a", "b"], true) ∧
    (["a", "b"] : List String) ≠ ["b", "a"] :=
  ⟨rfl, List.Perm.swap "b" "a" [], rfl, by decide⟩

/-- C3 (amended): for every requested name set whose names are loaded or
internal plugins and whose one-level dependency union resolves to loaded
modules, `init_plugins` returns true and invokes the initialize hook of
every plugin in the union (requested external plugins plus their declared
dependencies) that defines one exactly once per call — in the (unspecified)
iteration order of the queue set, not necessarily first-seen order (see the
counterexample). -/
theorem init_plugins_once (modules : List (String × PluginDef))
    (internalPs : List String) (req order : List String)
    (hreq : ∀ p ∈ req, (alookup modules p).isSome = true ∨ p ∈ internalPs)
    (hq : ∀ p ∈ init_queue_elems modules req, (alookup modules p).isSome = true)
    (hperm : order.Perm (init_queue_elems modules req)) :
    init_plugins modules internalPs req order
      = some (order.filter (fun p => hasInit modules p), true) ∧
    (∀ p ∈ init_queue_elems modules req, hasInit modules p = true →
      (order.filter (fun p => hasInit modules p)).count p = 1) ∧
    (∀ p, p ∈ order.filter (fun p => hasInit modules p) →
      hasInit modules p = true ∧ p ∈ init_queue_elems modules req) := by
  have hnd : order.Nodup := hperm.nodup_iff.mpr (init_queue_elems_nodup modules req)
  have hres : ∀ p ∈ order, (alookup modules p).isSome = true :=
    fun p hp => hq p (hperm.mem_iff.mp hp)
  have hall : req.all (fun p => (alookup modules p).isSome || decide (p ∈ internalPs))
      = true := by
    rw [List.all_eq_true]
    intro p hp
    rcases hreq p hp with h | h
    · simp [h]
    · simp [h]
  refine ⟨?_, ?_, ?_⟩
  · rw [init_plugins, if_pos ?_]
    · rw [initLoop_run modules order [] [] hres hnd (by simp)]
      simp
    · exact hall
  · intro p hpq hpi
    rw [List.count_filter hpi, hperm.count_eq p]
    exact List.count_eq_one_of_mem (init_queue_elems_nodup modules req) hpq
  · intro p hp
    refine ⟨List.of_mem_filter hp, ?_⟩
    exact hperm.mem_iff.mp (List.mem_of_mem_filter hp)

/-- C3 witness: the amended behavior at the concrete two-plugin table, with
the queue enumerated as `[b, a]`. -/
theorem init_plugins_once_witness :
    init_plugins
      [("a", { dependencies := ["b"], has_args := false, has_init := true, has_main := true }),
       ("b", { dependencies := [], has_args := false, has_init := true, has_main := false })]
      [] ["a"] ["b", "a"]
      = some ((["b", "a"].filter (fun p => hasInit
          [("a", { dependencies := ["b"], has_args := false, has_init := true, has_main := true }),
           ("b", { dependencies := [], has_args := false, has_init := true, has_main := false })] p)),
          true) :=
  (init_plugins_once
    [("a", { dependencies := ["b"], has_args := false, has_init := true, has_main := true }),
     ("b", { dependencies := [], has_args := false, has_init := true, has_main := false })]
    [] ["a"] ["b", "a"]
    (by decide) (by decide) (by decide)).1

end PaladinPlugins
